import Mathlib

/-!
Verification of the portfolio web service (`src/main.py`, `src/app.py`).

The development shallowly embeds the parts of the program the claims are
about:

* `_fetch_github_repos` (main.py:323-436): a cache-checking retry loop over
  an abstract upstream environment (`Nat → Outcome`, attempt number to the
  outcome of that attempt's HTTP GET).  Machine observations are the final
  `(data, error)` pair, the cache entry for the username's key, the number
  of GET attempts performed, and the sleeps executed between attempts.
* `api_github_repos` (main.py:476-500): the HTTP status mapping for errors.
* `api_contact` (main.py:521-726): honeypot, field validation, the
  captcha-bypass counter scheme, captcha provider chain, and the insert /
  email effects, with external collaborators (captcha HTTP verification,
  the database id, Python's `hash`) as oracle parameters.
* `api_search` (main.py:729-763) and `feed_xml` (main.py:766-818) as pure
  functions over the decoded repository records.

Python strings are modelled as Lean `String` via their character lists;
`str.strip`/`lower`/`int()` parsing are re-implemented below on `List Char`
so that every definition evaluates inside the kernel.
-/

namespace Portfolio

/-! ### Python string primitives -/

/-- `str.strip()` (whitespace on both ends; Python also strips a few rare
Unicode spaces, irrelevant to the claims). -/
def pyStrip (s : String) : String :=
  String.mk (((s.data.dropWhile Char.isWhitespace).reverse.dropWhile Char.isWhitespace).reverse)

/-- `str.lower()` (ASCII case folding; full Unicode folding does not matter
for any claim). -/
def pyLower (s : String) : String :=
  String.mk (s.data.map Char.toLower)

/-- Python `a or b` on optional strings: `None` and `""` are falsy. -/
def pyOrS : Option String → Option String → Option String
  | some s, b => if s = "" then b else some s
  | none, b => b

/-- Python `a or d` collapsing to a plain string default. -/
def pyOrDef (a : Option String) (d : String) : String :=
  match a with
  | some s => if s = "" then d else s
  | none => d

/-- Digit tail of Python's `int(str)` grammar: digits with single
underscores allowed between digits. -/
def pyIntDigits (acc : Nat) : List Char → Option Nat
  | [] => some acc
  | '_' :: c :: rest =>
    if c.isDigit then pyIntDigits (acc * 10 + (c.toNat - 48)) rest else none
  | ['_'] => none
  | c :: rest =>
    if c.isDigit then pyIntDigits (acc * 10 + (c.toNat - 48)) rest else none

/-- Nonempty digit sequence for `int(str)`. -/
def pyIntStart : List Char → Option Nat
  | [] => none
  | c :: rest => if c.isDigit then pyIntDigits (c.toNat - 48) rest else none

/-- Python `int(s)`: strip whitespace, optional sign, digits; `none` models
the `ValueError` raised on anything else. -/
def pyInt? (s : String) : Option Int :=
  match (pyStrip s).data with
  | '+' :: rest => (pyIntStart rest).map (fun n => (n : Int))
  | '-' :: rest => (pyIntStart rest).map (fun n => -(n : Int))
  | cs => (pyIntStart cs).map (fun n => (n : Int))

/-- Does `p` start the list `l`? -/
def listStartsWith : List Char → List Char → Bool
  | [], _ => true
  | _ :: _, [] => false
  | p :: ps, c :: cs => p = c && listStartsWith ps cs

/-- Python `pat in s`: contiguous substring occurrence. -/
def subOccurs (pat : List Char) : List Char → Bool
  | [] => listStartsWith pat []
  | c :: rest => listStartsWith pat (c :: rest) || subOccurs pat rest

/-- One character of `html.escape(s)` (with `quote=True`, the default used
by the `escape` import in main.py). -/
def escapeChar (c : Char) : List Char :=
  if c = '&' then ['&', 'a', 'm', 'p', ';']
  else if c = '<' then ['&', 'l', 't', ';']
  else if c = '>' then ['&', 'g', 't', ';']
  else if c = '"' then ['&', 'q', 'u', 'o', 't', ';']
  else if c = '\'' then ['&', '#', 'x', '2', '7', ';']
  else [c]

/-- `html.escape`: the sequential `str.replace` chain in CPython maps each
original character independently, so it equals this character-wise map. -/
def escapeHtml (s : String) : String :=
  String.mk (List.flatten (s.data.map escapeChar))

/-! ### JSON values

Decoded response bodies (`resp.json()`).  Numbers are modelled as integers;
no claim depends on fractional values. -/

inductive JVal where
  | null : JVal
  | bool (b : Bool) : JVal
  | num (n : Int) : JVal
  | str (s : String) : JVal
  | arr (xs : List JVal) : JVal
  | obj (fields : List (String × JVal)) : JVal

/-- Python truthiness of a decoded JSON value. -/
def JVal.truthy : JVal → Bool
  | JVal.null => false
  | JVal.bool b => b
  | JVal.num n => !(n = 0)
  | JVal.str s => !(s = "")
  | JVal.arr xs => !xs.isEmpty
  | JVal.obj fs => !fs.isEmpty

/-- `r.get(k)` on a decoded dict. -/
def objGet (fs : List (String × JVal)) (k : String) : Option JVal :=
  (fs.find? (fun p => p.1 = k)).map (fun p => p.2)

/-! ### The upstream fetch (`_fetch_github_repos`, main.py:323-436) -/

/-- Error classification dict `{"type": ..., "status": ..., "message": ...}`. -/
inductive ErrType where
  | rate_limited : ErrType
  | upstream_error : ErrType
  | bad_status : ErrType
  | timeout : ErrType
  | request_exception : ErrType
deriving DecidableEq

structure FetchErr where
  type : ErrType
  status : Nat
  message : String
deriving DecidableEq

/-- Outcome of one `requests.get` on the listing URL: an HTTP response
(with the two rate-limit headers and the decoded body, `none` when the body
is not valid JSON so that `resp.json()` raises), a `requests.Timeout`, or
another `requests.RequestException` carrying `str(e)`. -/
structure HttpResp where
  status : Nat
  retryAfter : Option String
  rateLimitReset : Option String
  body : Option JVal

inductive Outcome where
  | resp (r : HttpResp) : Outcome
  | timeout : Outcome
  | exn (msg : String) : Outcome

/-- Fallback wait hint from `X-RateLimit-Reset` (main.py:386-391): only used
when the header is truthy and parses as an int; parse failure is swallowed. -/
def rlResetHint (base : String) (now : Int) (reset : Option String) : String :=
  match reset with
  | some r =>
    if r = "" then base
    else
      match pyInt? r with
      | some n => base ++ "; retry in ~" ++ toString (max 0 (n - now)) ++ "s"
      | none => base
  | none => base

/-- Rate-limit message construction (main.py:381-391). -/
def rlMessage (now : Int) (retryAfter reset : Option String) : String :=
  match retryAfter with
  | some t =>
    if t = "" then rlResetHint "GitHub API rate limit reached" now reset
    else "GitHub API rate limit reached; retry after " ++ t ++ "s"
  | none => rlResetHint "GitHub API rate limit reached" now reset

/-- The error dict built in the 403/429 branch (main.py:392). -/
def rlErr (now : Int) (r : HttpResp) : FetchErr :=
  { type := ErrType.rate_limited, status := r.status,
    message := rlMessage now r.retryAfter r.rateLimitReset }

/-- Topic enrichment of one element of the decoded body array
(main.py:369-375).  `topicsOf` abstracts `_fetch_topics` (main.py:345-358),
which catches every exception and always returns a list of strings. -/
def enrichItem (topicsOf : JVal → List String) : JVal → JVal
  | JVal.obj fs =>
    match objGet fs "topics" with
    | some _ => JVal.obj fs
    | none =>
      match objGet fs "name" with
      | none => JVal.obj (fs ++ [("topics", JVal.arr [])])
      | some nv =>
        if nv.truthy then JVal.obj (fs ++ [("topics", JVal.arr ((topicsOf nv).map JVal.str))])
        else JVal.obj (fs ++ [("topics", JVal.arr [])])
  | v => v

/-- `for r in data: ...` over the decoded body (main.py:369-375).  Iterating
a list visits its elements; iterating a string or dict visits characters or
keys, none of which is a dict, leaving the value unchanged; iterating
`null`, a bool or a number raises `TypeError`, which no `except` clause in
the function catches. -/
def enrichData (topicsOf : JVal → List String) : JVal → Except String JVal
  | JVal.arr xs => Except.ok (JVal.arr (xs.map (enrichItem topicsOf)))
  | JVal.str s => Except.ok (JVal.str s)
  | JVal.obj fs => Except.ok (JVal.obj fs)
  | JVal.null => Except.error "TypeError: argument of type NoneType is not iterable"
  | JVal.bool _ => Except.error "TypeError: argument of type bool is not iterable"
  | JVal.num _ => Except.error "TypeError: argument of type int is not iterable"

/-- What the body of the loop does with one attempt's outcome. -/
inductive StepAction where
  | success (d : JVal) : StepAction
  | raised (msg : String) : StepAction
  | halt (e : FetchErr) : StepAction
  | retry (e : FetchErr) : StepAction

/-- Classification of one attempt (the `try` body, main.py:361-434).  A 200
whose body is not valid JSON makes `resp.json()` raise
`requests.exceptions.JSONDecodeError`, a `RequestException` subclass, so it
lands in the retried `request_exception` branch. -/
def classifyOutcome (topicsOf : JVal → List String) (now : Int) : Outcome → StepAction
  | Outcome.resp r =>
    if r.status = 200 then
      match r.body with
      | some b =>
        match enrichData topicsOf b with
        | Except.ok d => StepAction.success d
        | Except.error m => StepAction.raised m
      | none =>
        StepAction.retry
          { type := ErrType.request_exception, status := 502,
            message := "Expecting value: line 1 column 1 (char 0)" }
    else if r.status = 403 ∨ r.status = 429 then
      StepAction.halt
        { type := ErrType.rate_limited, status := r.status,
          message := rlMessage now r.retryAfter r.rateLimitReset }
    else if 500 ≤ r.status ∧ r.status < 600 then
      StepAction.retry
        { type := ErrType.upstream_error, status := r.status,
          message := "GitHub returned " ++ toString r.status }
    else
      StepAction.halt
        { type := ErrType.bad_status, status := r.status,
          message := "GitHub returned " ++ toString r.status }
  | Outcome.timeout =>
    StepAction.retry { type := ErrType.timeout, status := 504, message := "Request timed out" }
  | Outcome.exn m =>
    StepAction.retry { type := ErrType.request_exception, status := 502, message := m }

/-- `max_attempts = 3` (main.py:341). -/
def maxAttempts : Nat := 3

/-- Observed side effects of a fetch: GET attempts performed and the
`time.sleep` durations executed, in order. -/
structure FetchLog where
  attempts : Nat
  sleeps : List Nat
deriving DecidableEq

/-- Result of `_fetch_github_repos`: the returned `(data, error)` pair (or a
propagated exception message), the cache entry for the username's key
(paired with the TTL passed to `cache.set`), and the effect log. -/
structure FetchOut where
  result : Except String (Option JVal × Option FetchErr)
  cache : Option (JVal × Nat)
  log : FetchLog

/-- The retry loop (main.py:360-436).  `fuel` only bounds the recursion for
the termination checker: the initial call passes `fuel = maxAttempts` with
`attempt = 1`, and since recursion requires `attempt < maxAttempts`, the
`fuel = 0` arm is unreachable. -/
def fetchGo (env : Nat → Outcome) (topicsOf : JVal → List String) (now : Int)
    (c0 : Option (JVal × Nat)) :
    Nat → Nat → Nat → FetchLog → FetchOut
  | 0, _, _, log => { result := Except.ok (none, none), cache := c0, log := log }
  | fuel + 1, attempt, backoff, log =>
    match classifyOutcome topicsOf now (env attempt) with
    | StepAction.success d =>
      { result := Except.ok (some d, none), cache := some (d, 300),
        log := { attempts := log.attempts + 1, sleeps := log.sleeps } }
    | StepAction.raised m =>
      { result := Except.error m, cache := c0,
        log := { attempts := log.attempts + 1, sleeps := log.sleeps } }
    | StepAction.halt e =>
      { result := Except.ok (none, some e), cache := c0,
        log := { attempts := log.attempts + 1, sleeps := log.sleeps } }
    | StepAction.retry e =>
      if attempt < maxAttempts then
        fetchGo env topicsOf now c0 fuel (attempt + 1) (backoff * 2)
          { attempts := log.attempts + 1, sleeps := log.sleeps ++ [backoff] }
      else
        { result := Except.ok (none, some e), cache := c0,
          log := { attempts := log.attempts + 1, sleeps := log.sleeps } }

/-- `_fetch_github_repos(username)` for one username, relative to the
upstream environment `env` (outcome of the attempt-numbered GET), the topic
oracle, `int(time.time())`, and the current cache entry `c0` for
`github_repos:<username>`.  On a hit the cached value is returned at once;
on a miss the loop starts at `attempt = 1` with `backoff = 1.0`. -/
def fetchGithubRepos (env : Nat → Outcome) (topicsOf : JVal → List String) (now : Int)
    (c0 : Option (JVal × Nat)) : FetchOut :=
  match c0 with
  | some (v, _) =>
    { result := Except.ok (some v, none), cache := c0, log := { attempts := 0, sleeps := [] } }
  | none => fetchGo env topicsOf now none maxAttempts 1 1 { attempts := 0, sleeps := [] }

/-- Outcomes that take the retry-with-backoff path: a 5xx status, a
timeout, or a transport-level `RequestException`. -/
def Retriable : Outcome → Prop
  | Outcome.resp r => 500 ≤ r.status ∧ r.status < 600
  | Outcome.timeout => True
  | Outcome.exn _ => True

/-- The error recorded by a retriable outcome. -/
def retryErrOf : Outcome → FetchErr
  | Outcome.resp r =>
    { type := ErrType.upstream_error, status := r.status,
      message := "GitHub returned " ++ toString r.status }
  | Outcome.timeout => { type := ErrType.timeout, status := 504, message := "Request timed out" }
  | Outcome.exn m => { type := ErrType.request_exception, status := 502, message := m }

/-- JSON values Python can iterate without a `TypeError`: lists (elements),
strings (characters) and dicts (keys). -/
def IterableJ : JVal → Prop
  | JVal.arr _ => True
  | JVal.str _ => True
  | JVal.obj _ => True
  | JVal.null => False
  | JVal.bool _ => False
  | JVal.num _ => False

/-- Outcomes whose handling cannot raise: every decoded body of a 200
response is iterable. -/
def BodySafe : Outcome → Prop
  | Outcome.resp r => r.status = 200 → ∀ b, r.body = some b → IterableJ b
  | Outcome.timeout => True
  | Outcome.exn _ => True

/-! ### `api_github_repos` (main.py:476-500) -/

/-- JSON body and HTTP status produced by the route (fields of the two
`jsonify` dicts that the claims mention). -/
structure ReposRouteOut where
  okBody : Bool
  errType : Option ErrType
  message : Option String
  username : String
  http : Nat

/-- The route handler: fetch, then either the error body with
`status if isinstance(status, int) and status >= 400 else 502` (the model's
error statuses are always ints, so the `isinstance` guard is always true
and the `.get` defaults never fire), or the success body with HTTP 200.
A propagated exception is re-propagated (Flask turns it into a 500 page). -/
def apiGithubRepos (env : Nat → Outcome) (topicsOf : JVal → List String) (now : Int)
    (c0 : Option (JVal × Nat)) (username : String) : Except String ReposRouteOut :=
  match (fetchGithubRepos env topicsOf now c0).result with
  | Except.error m => Except.error m
  | Except.ok (_, some e) =>
    Except.ok { okBody := false, errType := some e.type, message := some e.message,
                username := username, http := if 400 ≤ e.status then e.status else 502 }
  | Except.ok (_, none) =>
    Except.ok { okBody := true, errType := none, message := none,
                username := username, http := 200 }

/-! ### `api_contact` (main.py:521-726)

External collaborators are oracle parameters: the captcha verification
HTTP call (`CaptchaResult`; the float score comparison of main.py:679-684
is abstracted as the pre-computed `scoreBelow` flag, which no claim
touches), Python's `hash` for the dedupe fingerprint, and the database id
returned by the insert. -/

/-- Truthiness of an optional string (`None` and `""` falsy). -/
def truthyS : Option String → Bool
  | some s => !(s = "")
  | none => false

/-- `(os.getenv(name, dflt) or "").lower() in ("1", "true", "yes")` and the
variant without `or ""`. -/
def envFlag (v : Option String) (dflt : String) : Bool :=
  let s := pyLower (v.getD dflt)
  s = "1" || s = "true" || s = "yes"

/-- `host.split(",", 1)[0].strip().lower()` followed by dropping a `:port`
suffix (main.py:572-574). -/
def normHost (raw : String) : String :=
  let first := String.mk (raw.data.takeWhile (fun c => c ≠ ','))
  let lowered := pyLower (pyStrip first)
  String.mk (lowered.data.takeWhile (fun c => c ≠ ':'))

/-- The compiled email pattern `^[A-Z0-9._%+-]+@[A-Z0-9.-]+\.[A-Z]{2,}$`
with `re.IGNORECASE` (main.py:540). -/
def isLocalChar (c : Char) : Bool :=
  c.isAlpha || c.isDigit || c = '.' || c = '_' || c = '%' || c = '+' || c = '-'

/-- Characters allowed in the domain part before the final dot. -/
def isDomChar (c : Char) : Bool :=
  c.isAlpha || c.isDigit || c = '.' || c = '-'

/-- Full-string match of the email regex.  The pattern forces exactly one
`@`; after it, some split `domain = y ++ "." ++ z` must have `y` nonempty
over `[A-Z0-9.-]` and `z` alphabetic of length at least 2 — since `z`
cannot contain a dot, only the split at the last dot can succeed. -/
def emailRegexMatch (s : String) : Bool :=
  let cs := s.data
  let l := cs.takeWhile (fun c => c ≠ '@')
  match cs.drop l.length with
  | '@' :: d =>
    !l.isEmpty && l.all isLocalChar && d.all (fun c => c ≠ '@') &&
    (let zRev := d.reverse.takeWhile (fun c => c ≠ '.')
     let y := d.take (d.length - zRev.length - 1)
     decide (zRev.length < d.length) && decide (2 ≤ zRev.length) &&
       zRev.all (fun c => c.isAlpha) && !y.isEmpty && y.all isDomChar)
  | _ => false

/-- Outcome of one captcha verification POST: an exception anywhere in the
`try` (connection fault or `vresp.json()` raising), or a response with
`vresp.ok`, `vjson.get("success")`, the score-threshold comparison
(`some true` iff a score was present, both floats parsed, and the score was
below the threshold), and `vjson.get("action")`. -/
inductive CaptchaResult where
  | exn : CaptchaResult
  | resp (ok : Bool) (success : Bool) (scoreBelow : Option Bool) (action : Option String) :
      CaptchaResult

/-- Request context, environment configuration and oracles for one
`POST /api/contact` request. -/
structure ContactCtx where
  hostHeader : Option String
  requestHost : String
  xff : Option String
  remoteAddr : Option String
  userAgent : Option String
  realIp : String
  now : Nat
  dbId : Nat
  canonicalHostEnv : Option String
  requireOnDevEnv : Option String
  minLenEnv : Option String
  turnstileSecretEnv : Option String
  hcaptchaSecretEnv : Option String
  recaptchaSecretEnv : Option String
  bypassKeyPrefEnv : Option String
  bypassWindowEnv : Option String
  bypassBurstEnv : Option String
  bypassHourlyEnv : Option String
  bypassDailyEnv : Option String
  bypassDedupeEnv : Option String
  captchaVerify : String → String → CaptchaResult
  msgHash : String → String → Int

/-- Observable side effects of the handler, in execution order. -/
inductive Effect where
  | cacheSet (key : String) (value : Int) (timeout : Int) : Effect
  | captchaCall (provider token : String) : Effect
  | dbInsert (name email message : String) (ts : Nat) (ip ua : String) : Effect
  | emailAttempt (name email message : String) : Effect

/-- The JSON body of each terminal response of the handler. -/
inductive ContactResp where
  | honeypotOk : ContactResp
  | validationError (nameD emailD msgD : Option String) : ContactResp
  | rateLimited (reason : String) : ContactResp
  | duplicateMsg : ContactResp
  | captchaRequired : ContactResp
  | captchaFailed : ContactResp
  | success (id createdAt : Nat) : ContactResp
deriving DecidableEq

structure ContactOut where
  resp : ContactResp
  status : Nat
  effects : List Effect
  counters : String → Option Int

/-- `_inc_and_get` (main.py:593-600): read, bump, store. -/
def incAndGet (counters : String → Option Int) (key : String) :
    Int × (String → Option Int) :=
  let cur := (counters key).getD 0 + 1
  (cur, fun k => if k = key then some cur else counters k)

/-- `ip` for the insert (main.py:566):
`request.headers.get("X-Forwarded-For", request.remote_addr) or "unknown"`. -/
def contactIp (ctx : ContactCtx) : String :=
  match ctx.xff with
  | some v => if v = "" then "unknown" else v
  | none =>
    match ctx.remoteAddr with
    | some r => if r = "" then "unknown" else r
    | none => "unknown"

/-- Result of the captcha-bypass counter block. -/
structure BypassOut where
  early : Option (ContactResp × Nat)
  counters : String → Option Int
  effects : List Effect

/-- The bypass counter scheme (main.py:582-630).  The whole block sits in a
`try` whose `except` falls through, so if any of the four `int(...)` env
parses raises, nothing at all happens (the parses precede every cache
operation); a parse failure of the dedupe TTL raises after the duplicate
check but before the `cache.set`, so only that store is skipped. -/
def bypassCounters (ctx : ContactCtx) (message : String)
    (counters : String → Option Int) : BypassOut :=
  match pyInt? (ctx.bypassWindowEnv.getD "60"), pyInt? (ctx.bypassBurstEnv.getD "1"),
      pyInt? (ctx.bypassHourlyEnv.getD "3"), pyInt? (ctx.bypassDailyEnv.getD "10") with
  | some windowS, some burstLimit, some hourlyLimit, some dayLimit =>
    let kPref := ctx.bypassKeyPrefEnv.getD "contact_bypass"
    let uaLocal := String.mk ((pyStrip (ctx.userAgent.getD "")).data.take 120)
    let burstBucket : Int := (ctx.now : Int) / (max 1 (min windowS 10))
    let burstKey := kPref ++ ":burst:" ++ ctx.realIp ++ ":" ++ uaLocal ++ ":"
      ++ toString burstBucket
    let p1 := incAndGet counters burstKey
    let eff1 := [Effect.cacheSet burstKey p1.1 windowS]
    if burstLimit < p1.1 then
      { early := some (ContactResp.rateLimited "burst", 429), counters := p1.2, effects := eff1 }
    else
      let hourKey := kPref ++ ":hour:" ++ ctx.realIp ++ ":" ++ uaLocal ++ ":"
        ++ toString (ctx.now / 3600)
      let p2 := incAndGet p1.2 hourKey
      let eff2 := eff1 ++ [Effect.cacheSet hourKey p2.1 3700]
      if hourlyLimit < p2.1 then
        { early := some (ContactResp.rateLimited "hourly", 429), counters := p2.2,
          effects := eff2 }
      else
        let dayKey := kPref ++ ":day:" ++ ctx.realIp ++ ":" ++ uaLocal ++ ":"
          ++ toString (ctx.now / 86400)
        let p3 := incAndGet p2.2 dayKey
        let eff3 := eff2 ++ [Effect.cacheSet dayKey p3.1 90000]
        if dayLimit < p3.1 then
          { early := some (ContactResp.rateLimited "daily", 429), counters := p3.2,
            effects := eff3 }
        else
          let fp := kPref ++ ":dedupe:" ++ ctx.realIp ++ ":"
            ++ toString (ctx.msgHash uaLocal message)
          if !((p3.2 fp).getD 0 = 0) then
            { early := some (ContactResp.duplicateMsg, 429), counters := p3.2, effects := eff3 }
          else
            match pyInt? (ctx.bypassDedupeEnv.getD "600") with
            | some dd =>
              { early := none, counters := fun k => if k = fp then some 1 else p3.2 k,
                effects := eff3 ++ [Effect.cacheSet fp 1 dd] }
            | none => { early := none, counters := p3.2, effects := eff3 }
  | _, _, _, _ => { early := none, counters := counters, effects := [] }

/-- The provider chain (main.py:632-689): Turnstile, else hCaptcha, else
reCAPTCHA, each applied only when its (possibly cleared) secret is truthy. -/
def captchaChain (ctx : ContactCtx) (data : String → Option String)
    (tkSecret hcSecret rcSecret : Option String) :
    Option (ContactResp × Nat) × List Effect :=
  if truthyS tkSecret then
    let token := pyStrip
      (pyOrDef (pyOrS (data "cf_turnstile_token") (data "cf-turnstile-response")) "")
    if token = "" then (some (ContactResp.captchaRequired, 400), [])
    else
      match ctx.captchaVerify "turnstile" token with
      | CaptchaResult.exn =>
        (some (ContactResp.captchaFailed, 400), [Effect.captchaCall "turnstile" token])
      | CaptchaResult.resp ok success _ _ =>
        if ok && success then (none, [Effect.captchaCall "turnstile" token])
        else (some (ContactResp.captchaFailed, 400), [Effect.captchaCall "turnstile" token])
  else if truthyS hcSecret then
    let token := pyStrip
      (pyOrDef (pyOrS (data "hcaptcha_token") (data "h-captcha-response")) "")
    if token = "" then (some (ContactResp.captchaRequired, 400), [])
    else
      match ctx.captchaVerify "hcaptcha" token with
      | CaptchaResult.exn =>
        (some (ContactResp.captchaFailed, 400), [Effect.captchaCall "hcaptcha" token])
      | CaptchaResult.resp ok success _ _ =>
        if ok && success then (none, [Effect.captchaCall "hcaptcha" token])
        else (some (ContactResp.captchaFailed, 400), [Effect.captchaCall "hcaptcha" token])
  else if truthyS rcSecret then
    let token := pyStrip
      (pyOrDef (pyOrS (data "recaptcha_token") (data "g-recaptcha-response")) "")
    if token = "" then (some (ContactResp.captchaRequired, 400), [])
    else
      match ctx.captchaVerify "recaptcha" token with
      | CaptchaResult.exn =>
        (some (ContactResp.captchaFailed, 400), [Effect.captchaCall "recaptcha" token])
      | CaptchaResult.resp ok success scoreBelow action =>
        if !(ok && success) then
          (some (ContactResp.captchaFailed, 400), [Effect.captchaCall "recaptcha" token])
        else if scoreBelow = some true then
          (some (ContactResp.captchaFailed, 400), [Effect.captchaCall "recaptcha" token])
        else if truthyS action && !(action = some "contact") then
          (some (ContactResp.captchaFailed, 400), [Effect.captchaCall "recaptcha" token])
        else (none, [Effect.captchaCall "recaptcha" token])
  else (none, [])

/-- Captcha (on the effective secrets), then the insert and the best-effort
email notification (main.py:691-726). -/
def contactFinal (ctx : ContactCtx) (counters : String → Option Int)
    (data : String → Option String) (name email message : String)
    (tkSecret hcSecret rcSecret : Option String) (effAcc : List Effect) : ContactOut :=
  match (captchaChain ctx data tkSecret hcSecret rcSecret).1 with
  | some p =>
    { resp := p.1, status := p.2,
      effects := effAcc ++ (captchaChain ctx data tkSecret hcSecret rcSecret).2,
      counters := counters }
  | none =>
    { resp := ContactResp.success ctx.dbId ctx.now, status := 201,
      effects := effAcc ++ (captchaChain ctx data tkSecret hcSecret rcSecret).2 ++
        [Effect.dbInsert name email message ctx.now (contactIp ctx) (ctx.userAgent.getD ""),
         Effect.emailAttempt name email message],
      counters := counters }

/-- Host classification and captcha bypass (main.py:565-630), then the
rest of the pipeline. -/
def contactGuarded (ctx : ContactCtx) (counters : String → Option Int)
    (data : String → Option String) (name email message : String) : ContactOut :=
  let hostHdr := normHost (pyOrDef (pyOrS ctx.hostHeader (some ctx.requestHost)) "")
  let canonical := pyLower (pyStrip (ctx.canonicalHostEnv.getD "yusufsiddiqui.dev"))
  let isDevLike := hostHdr = "localhost" || listStartsWith ['1', '2', '7', '.'] hostHdr.data
  let requireOnDev := envFlag ctx.requireOnDevEnv "0"
  if (isDevLike || (!(canonical = "") && !(hostHdr = "") && !(hostHdr = canonical)))
      && !requireOnDev then
    let b := bypassCounters ctx message counters
    match b.early with
    | some (resp, code) =>
      { resp := resp, status := code, effects := b.effects, counters := b.counters }
    | none => contactFinal ctx b.counters data name email message none none none b.effects
  else
    contactFinal ctx counters data name email message
      ctx.turnstileSecretEnv ctx.hcaptchaSecretEnv ctx.recaptchaSecretEnv []

/-- `name = (data.get("name") or "").strip()` (main.py:530). -/
def contactName (data : String → Option String) : String :=
  pyStrip (pyOrDef (data "name") "")

/-- `email = (data.get("email") or "").strip()` (main.py:531). -/
def contactEmail (data : String → Option String) : String :=
  pyStrip (pyOrDef (data "email") "")

/-- `message = (data.get("message") or "").strip()` (main.py:532). -/
def contactMessage (data : String → Option String) : String :=
  pyStrip (pyOrDef (data "message") "")

/-- `int(os.getenv("CONTACT_MIN_MESSAGE_LEN", "20"))` with the `except`
fallback to 20 (main.py:544-548). -/
def contactMinLen (ctx : ContactCtx) : Int :=
  (pyInt? (ctx.minLenEnv.getD "20")).getD 20

/-- `valid_name = len(name) >= 2` (main.py:550). -/
def validName (data : String → Option String) : Bool :=
  decide (2 ≤ (contactName data).length)

/-- `valid_email = bool(email_regex.match(email))` (main.py:551; the regex
always compiles, so the fallback branch is dead). -/
def validEmail (data : String → Option String) : Bool :=
  emailRegexMatch (contactEmail data)

/-- `valid_message = len(message) >= min_message_len` (main.py:552). -/
def validMessage (ctx : ContactCtx) (data : String → Option String) : Bool :=
  decide (contactMinLen ctx ≤ ((contactMessage data).length : Int))

/-- The handler body: honeypot (main.py:527-528), trimming and validation
(main.py:530-563), then the guarded rest. -/
def apiContact (ctx : ContactCtx) (counters : String → Option Int)
    (data : String → Option String) : ContactOut :=
  if !(pyStrip (pyOrDef (data "website") "") = "") then
    { resp := ContactResp.honeypotOk, status := 200, effects := [], counters := counters }
  else
    if !(validName data && validEmail data && validMessage ctx data) then
      { resp := ContactResp.validationError
          (if validName data then none else some "too_short")
          (if validEmail data then none else some "invalid")
          (if validMessage ctx data then none
           else some ("too_short_min_" ++ toString (contactMinLen ctx))),
        status := 400, effects := [], counters := counters }
    else
      contactGuarded ctx counters data (contactName data) (contactEmail data)
        (contactMessage data)

/-- Concrete request context used by witnesses: local development host, no
captcha secrets, no rate-limit overrides, default minimum message length. -/
def ctxW : ContactCtx :=
  { hostHeader := some "localhost", requestHost := "localhost", xff := none,
    remoteAddr := some "127.0.0.1", userAgent := some "agent", realIp := "127.0.0.1",
    now := 1000, dbId := 7, canonicalHostEnv := none, requireOnDevEnv := none,
    minLenEnv := none, turnstileSecretEnv := none, hcaptchaSecretEnv := none,
    recaptchaSecretEnv := none, bypassKeyPrefEnv := none, bypassWindowEnv := none,
    bypassBurstEnv := none, bypassHourlyEnv := none, bypassDailyEnv := none,
    bypassDedupeEnv := none, captchaVerify := fun _ _ => CaptchaResult.exn,
    msgHash := fun _ _ => 0 }

/-- Concrete submission whose trimmed message has length 19. -/
def dataW19 : String → Option String := fun k =>
  if k = "name" then some "Alice"
  else if k = "email" then some "alice@example.com"
  else if k = "message" then some "0123456789012345678"
  else none

/-- Concrete submission with a filled honeypot field. -/
def dataHP : String → Option String := fun k =>
  if k = "website" then some "http://spam.example" else none

/-! ### `api_search` (main.py:729-763)

Repository records as decoded by the fetch, restricted to the fields the
route reads; an `Option` field is `none` when the key is absent or null. -/

structure Repo where
  name : Option String
  description : Option String
  language : Option String
  html_url : Option String
  stargazers_count : Option Int
  forks_count : Option Int
  pushed_at : Option String
  updated_at : Option String
  topics : Option (List String)

/-- The haystack (main.py:744-749): space-joined name, description,
language and space-joined topics, lower-cased. -/
def searchText (r : Repo) : String :=
  pyLower ((pyOrDef r.name "") ++ " " ++ (pyOrDef r.description "") ++ " "
    ++ (pyOrDef r.language "") ++ " " ++ String.intercalate " " (r.topics.getD []))

/-- One record matches when the lower-cased query occurs in the haystack. -/
def repoMatches (ql : String) (r : Repo) : Bool :=
  subOccurs ql.data (searchText r).data

/-- One entry of the `results` array (main.py:751-760). -/
structure SearchItem where
  name : Option String
  html_url : Option String
  description : Option String
  language : Option String
  stars : Int
  forks : Int
  updated_at : Option String
  topics : List String
deriving DecidableEq

def toItem (r : Repo) : SearchItem :=
  { name := r.name, html_url := r.html_url, description := r.description,
    language := r.language, stars := (r.stargazers_count.getD 0),
    forks := (r.forks_count.getD 0), updated_at := pyOrS r.pushed_at r.updated_at,
    topics := r.topics.getD [] }

/-- Sort key (main.py:762): the tuple `(x["stars"], x["updated_at"] or "")`. -/
def skey (x : SearchItem) : Int × String := (x.stars, pyOrDef x.updated_at "")

/-- Python tuple order on the key. -/
def keyLE (p q : Int × String) : Prop :=
  p.1 < q.1 ∨ (p.1 = q.1 ∧ p.2 ≤ q.2)

instance (p q : Int × String) : Decidable (keyLE p q) := by
  unfold keyLE; infer_instance

/-- `a` may precede `b` in the descending sort.  `list.sort(reverse=True)`
is stable, and a stable sort with this total preorder is exactly
`List.insertionSort`. -/
def itemBefore (a b : SearchItem) : Prop := keyLE (skey b) (skey a)

instance (a b : SearchItem) : Decidable (itemBefore a b) := by
  unfold itemBefore; infer_instance

instance : IsTotal SearchItem itemBefore :=
  ⟨by
    intro a b
    simp only [itemBefore, keyLE]
    rcases lt_trichotomy (skey a).1 (skey b).1 with h | h | h
    · rcases le_total (skey a).2 (skey b).2 with h2 | h2
      · exact Or.inr (Or.inl h)
      · exact Or.inr (Or.inl h)
    · rcases le_total (skey a).2 (skey b).2 with h2 | h2
      · exact Or.inr (Or.inr ⟨h, h2⟩)
      · exact Or.inl (Or.inr ⟨h.symm, h2⟩)
    · exact Or.inl (Or.inl h)⟩

instance : IsTrans SearchItem itemBefore :=
  ⟨by
    intro a b c hab hbc
    simp only [itemBefore, keyLE] at hab hbc ⊢
    rcases hab with h1 | ⟨h1, h1s⟩ <;> rcases hbc with h2 | ⟨h2, h2s⟩
    · exact Or.inl (by omega)
    · exact Or.inl (by omega)
    · exact Or.inl (by omega)
    · exact Or.inr ⟨by omega, le_trans h2s h1s⟩⟩

/-- Responses of `GET /api/search`, by terminal branch. -/
inductive SearchResp where
  | emptyQuery : SearchResp
  | fetchFailed (etype : ErrType) (message : String) : SearchResp
  | found (count : Nat) (items : List SearchItem) : SearchResp
deriving DecidableEq

/-- Keys of the `jsonify` dict of each branch (main.py:734, 739, 763). -/
def searchBodyFields : SearchResp → List String
  | SearchResp.emptyQuery => ["ok", "results"]
  | SearchResp.fetchFailed _ _ => ["ok", "error", "message"]
  | SearchResp.found _ _ => ["ok", "count", "results"]

/-- The route over the stripped query and the fetch outcome: empty query
short-circuits before any fetch; a fetch error yields 502; otherwise
filter, stable-sort descending, `count` of all matches, top 10. -/
def apiSearch (qRaw : String) (fetchErr : Option FetchErr) (data : List Repo) :
    SearchResp × Nat :=
  let q := pyStrip qRaw
  if q = "" then (SearchResp.emptyQuery, 200)
  else
    match fetchErr with
    | some e => (SearchResp.fetchFailed e.type e.message, 502)
    | none =>
      let results := (data.filter (repoMatches (pyLower q))).map toItem
      let sorted := List.insertionSort itemBefore results
      (SearchResp.found sorted.length (sorted.take 10), 200)

/-! ### `feed.xml` (main.py:766-818) -/

/-- Feed sort key (main.py:784): `r.get("pushed_at") or r.get("updated_at") or ""`. -/
def updKey (r : Repo) : String := pyOrDef (pyOrS r.pushed_at r.updated_at) ""

/-- `a` may precede `b` in the descending feed sort. -/
def repoBefore (a b : Repo) : Prop := updKey b ≤ updKey a

instance (a b : Repo) : Decidable (repoBefore a b) := by
  unfold repoBefore; infer_instance

instance : IsTotal Repo repoBefore := ⟨fun a b => le_total (updKey b) (updKey a)⟩

instance : IsTrans Repo repoBefore :=
  ⟨fun _ _ _ hab hbc => le_trans hbc hab⟩

/-- `iso.replace("Z", "+00:00")` (main.py:768). -/
def pyReplaceZ (s : String) : String :=
  String.mk (List.flatten (s.data.map
    (fun c => if c = 'Z' then ['+', '0', '0', ':', '0', '0'] else [c])))

/-- `_to_rfc2822` relative to abstract datetime collaborators: `parse`
models `datetime.fromisoformat` (`none` = raises), `fmt` models
`strftime("%a, %d %b %Y %H:%M:%S %z")`, and `nowDt` models
`datetime.now(timezone.utc)`. -/
def toRfc2822 (DT : Type) (parse : String → Option DT) (fmt : DT → String) (nowDt : DT)
    (iso : String) : String :=
  match parse (pyReplaceZ iso) with
  | some dt => fmt dt
  | none => fmt nowDt

structure FeedItem where
  title : String
  link : String
  pubDate : String
  description : String
deriving DecidableEq

/-- One `<item>` of the feed (main.py:791-804). -/
def renderFeedItem (DT : Type) (parse : String → Option DT) (fmt : DT → String) (nowDt : DT)
    (siteLink : String) (r : Repo) : FeedItem :=
  { title := escapeHtml (pyOrDef r.name "Repository"),
    link := escapeHtml (pyOrDef r.html_url siteLink),
    pubDate := toRfc2822 DT parse fmt nowDt (pyOrDef (pyOrS r.pushed_at r.updated_at) ""),
    description := escapeHtml (pyOrDef r.description "") }

/-- The f-string of main.py:796-804 after its outer `.strip()` (the ends
are the fixed `<item>`/`</item>` literals, so only the template's outer
newline-and-indent margins are removed). -/
def itemXml (it : FeedItem) : String :=
  "<item>\n                <title>" ++ it.title
    ++ "</title>\n                <link>" ++ it.link
    ++ "</link>\n                <guid isPermaLink=\"true\">" ++ it.link
    ++ "</guid>\n                <pubDate>" ++ it.pubDate
    ++ "</pubDate>\n                <description>" ++ it.description
    ++ "</description>\n            </item>"

structure FeedOut where
  items : List FeedItem
  xml : String

/-- `feed_xml` after a successful fetch: sort descending by last update,
take 10, render (main.py:781-814).  `siteLink` is
`request.url_root.rstrip("/")`. -/
def feedXml (DT : Type) (parse : String → Option DT) (fmt : DT → String) (nowDt : DT)
    (username siteLink : String) (data : List Repo) : FeedOut :=
  let top := (List.insertionSort repoBefore data).take 10
  let items := top.map (renderFeedItem DT parse fmt nowDt siteLink)
  { items := items,
    xml := "<?xml version=\"1.0\" encoding=\"UTF-8\"?>\n<rss version=\"2.0\">\n<channel>\n<title>"
      ++ escapeHtml (username ++ "'s updates")
      ++ "</title>\n<link>" ++ siteLink
      ++ "</link>\n<description>Latest updated repositories</description>\n"
      ++ String.join (items.map itemXml)
      ++ "\n</channel>\n</rss>" }

/-- No raw markup characters: what `html.escape` guarantees for every text
field it produced. -/
def NoRawMarkup (s : String) : Prop :=
  ∀ c ∈ s.data, c ≠ '<' ∧ c ≠ '>' ∧ c ≠ '"' ∧ c ≠ '\''

/-- Name of an XML tag: up to a space, `/` or `>`. -/
def tagNameOf (cs : List Char) : List Char :=
  cs.takeWhile (fun c => c ≠ ' ' && c ≠ '>' && c ≠ '/')

/-- A small well-formedness scanner for the concrete documents checked
below: tags must nest properly; `<?...?>` prologs are skipped; `fuel`
bounds the recursion. -/
def xmlScan : Nat → List Char → List (List Char) → Bool
  | 0, _, _ => false
  | _ + 1, [], stack => stack.isEmpty
  | fuel + 1, '<' :: '?' :: rest, stack =>
    xmlScan fuel ((rest.dropWhile (fun c => c ≠ '>')).drop 1) stack
  | fuel + 1, '<' :: '/' :: rest, stack =>
    (match stack with
     | [] => false
     | t :: stk =>
       decide (rest.takeWhile (fun c => c ≠ '>') = t) &&
         xmlScan fuel ((rest.dropWhile (fun c => c ≠ '>')).drop 1) stk)
  | fuel + 1, '<' :: rest, stack =>
    xmlScan fuel ((rest.dropWhile (fun c => c ≠ '>')).drop 1) (tagNameOf rest :: stack)
  | fuel + 1, _ :: rest, stack => xmlScan fuel rest stack

/-- Balanced-tag check used to witness well-formedness of a concrete feed. -/
def xmlBalanced (s : String) : Bool :=
  xmlScan (s.data.length + 1) s.data []

/-! ## Theorems -/

theorem classify_retriable (topicsOf : JVal → List String) (now : Int) (o : Outcome)
    (h : Retriable o) :
    classifyOutcome topicsOf now o = StepAction.retry (retryErrOf o) := by
  cases o with
  | resp r =>
    obtain ⟨h1, h2⟩ := h
    simp only [classifyOutcome, retryErrOf]
    rw [if_neg (by omega), if_neg (by omega), if_pos ⟨h1, h2⟩]
  | timeout => rfl
  | exn m => rfl

theorem classify_rate_limited (topicsOf : JVal → List String) (now : Int) (r : HttpResp)
    (hs : r.status = 403 ∨ r.status = 429) :
    classifyOutcome topicsOf now (Outcome.resp r) = StepAction.halt (rlErr now r) := by
  simp only [classifyOutcome, rlErr]
  rw [if_neg (by omega), if_pos hs]

theorem classify_not_raised (topicsOf : JVal → List String) (now : Int) (o : Outcome)
    (h : BodySafe o) (m : String) :
    classifyOutcome topicsOf now o ≠ StepAction.raised m := by
  cases o with
  | timeout => simp [classifyOutcome]
  | exn s => simp [classifyOutcome]
  | resp r =>
    simp only [classifyOutcome]
    by_cases h200 : r.status = 200
    · simp only [if_pos h200]
      cases hb : r.body with
      | none => simp
      | some b =>
        have hit : IterableJ b := h h200 b hb
        cases b with
        | arr xs => simp [enrichData]
        | str s => simp [enrichData]
        | obj fs => simp [enrichData]
        | null => exact hit.elim
        | bool v => exact hit.elim
        | num n => exact hit.elim
    · simp only [if_neg h200]
      split
      · simp
      · split <;> simp

theorem fetchGo_cache_cases (env : Nat → Outcome) (topicsOf : JVal → List String) (now : Int)
    (c0 : Option (JVal × Nat)) :
    ∀ fuel attempt backoff log,
      (fetchGo env topicsOf now c0 fuel attempt backoff log).cache = c0 ∨
      ∃ d, (fetchGo env topicsOf now c0 fuel attempt backoff log).result
            = Except.ok (some d, none) ∧
        (fetchGo env topicsOf now c0 fuel attempt backoff log).cache = some (d, 300) := by
  intro fuel
  induction fuel with
  | zero => intro a b log; exact Or.inl rfl
  | succ f ih =>
    intro a b log
    simp only [fetchGo]
    cases hc : classifyOutcome topicsOf now (env a) with
    | success d => exact Or.inr ⟨d, rfl, rfl⟩
    | raised m => exact Or.inl rfl
    | halt e => exact Or.inl rfl
    | retry e =>
      by_cases hlt : a < maxAttempts
      · simp only [if_pos hlt]
        exact ih (a + 1) (b * 2) _
      · simp only [if_neg hlt]
        exact Or.inl trivial

/-- C1: the repository cache entry for a username is written only by a
fetch whose final outcome is a 200 success, and then with value = the
returned data and TTL 300; on every error outcome the entry is unchanged;
and when an entry is present the call returns it with zero GET attempts
and zero sleeps. -/
theorem fetch_cache_write_discipline (env : Nat → Outcome) (topicsOf : JVal → List String)
    (now : Int) (c0 : Option (JVal × Nat)) :
    ((fetchGithubRepos env topicsOf now c0).cache ≠ c0 →
      ∃ d, (fetchGithubRepos env topicsOf now c0).result = Except.ok (some d, none) ∧
        (fetchGithubRepos env topicsOf now c0).cache = some (d, 300))
    ∧ (∀ e, (fetchGithubRepos env topicsOf now c0).result = Except.ok (none, some e) →
        (fetchGithubRepos env topicsOf now c0).cache = c0)
    ∧ (∀ m, (fetchGithubRepos env topicsOf now c0).result = Except.error m →
        (fetchGithubRepos env topicsOf now c0).cache = c0)
    ∧ (∀ v ttl, c0 = some (v, ttl) →
        (fetchGithubRepos env topicsOf now c0).result = Except.ok (some v, none) ∧
        (fetchGithubRepos env topicsOf now c0).cache = c0 ∧
        (fetchGithubRepos env topicsOf now c0).log.attempts = 0 ∧
        (fetchGithubRepos env topicsOf now c0).log.sleeps = []) := by
  have hcases : (fetchGithubRepos env topicsOf now c0).cache = c0 ∨
      ∃ d, (fetchGithubRepos env topicsOf now c0).result = Except.ok (some d, none) ∧
        (fetchGithubRepos env topicsOf now c0).cache = some (d, 300) := by
    cases c0 with
    | some p => exact Or.inl rfl
    | none =>
      exact fetchGo_cache_cases env topicsOf now none maxAttempts 1 1
        { attempts := 0, sleeps := [] }
  refine ⟨?_, ?_, ?_, ?_⟩
  · intro hne
    rcases hcases with h | h
    · exact absurd h hne
    · exact h
  · intro e he
    rcases hcases with h | ⟨d, hd, _⟩
    · exact h
    · rw [he] at hd
      simp at hd
  · intro m hm
    rcases hcases with h | ⟨d, hd, _⟩
    · exact h
    · rw [hm] at hd
      simp at hd
  · intro v ttl hv
    subst hv
    exact ⟨rfl, rfl, rfl, rfl⟩

theorem fetch_cache_write_discipline_witness :
    (fetchGithubRepos (fun _ => Outcome.timeout) (fun _ => []) 0
        (some (JVal.arr [], 300))).result = Except.ok (some (JVal.arr []), none) ∧
    (fetchGithubRepos (fun _ => Outcome.timeout) (fun _ => []) 0
        (some (JVal.arr [], 300))).log.attempts = 0 :=
  ⟨((fetch_cache_write_discipline (fun _ => Outcome.timeout) (fun _ => []) 0
      (some (JVal.arr [], 300))).2.2.2 (JVal.arr []) 300 rfl).1,
   ((fetch_cache_write_discipline (fun _ => Outcome.timeout) (fun _ => []) 0
      (some (JVal.arr [], 300))).2.2.2 (JVal.arr []) 300 rfl).2.2.1⟩

theorem fetchGo_step_retry (env : Nat → Outcome) (topicsOf : JVal → List String) (now : Int)
    (c0 : Option (JVal × Nat)) (fuel a b : Nat) (log : FetchLog)
    (hf : 1 ≤ fuel) (h : Retriable (env a)) (ha : a < maxAttempts) :
    fetchGo env topicsOf now c0 fuel a b log =
      fetchGo env topicsOf now c0 (fuel - 1) (a + 1) (b * 2)
        { attempts := log.attempts + 1, sleeps := log.sleeps ++ [b] } := by
  cases fuel with
  | zero => omega
  | succ f =>
    simp only [fetchGo, classify_retriable topicsOf now (env a) h, if_pos ha,
      Nat.add_sub_cancel]

theorem fetchGo_rl_halt (env : Nat → Outcome) (topicsOf : JVal → List String) (now : Int)
    (c0 : Option (JVal × Nat)) (fuel a b : Nat) (log : FetchLog) (r : HttpResp)
    (hf : 1 ≤ fuel) (henv : env a = Outcome.resp r) (hs : r.status = 403 ∨ r.status = 429) :
    fetchGo env topicsOf now c0 fuel a b log =
      { result := Except.ok (none, some (rlErr now r)),
        cache := c0, log := { attempts := log.attempts + 1, sleeps := log.sleeps } } := by
  cases fuel with
  | zero => omega
  | succ f =>
    simp only [fetchGo, henv, classify_rate_limited topicsOf now r hs]

theorem fetchGo_final_retry (env : Nat → Outcome) (topicsOf : JVal → List String) (now : Int)
    (c0 : Option (JVal × Nat)) (fuel b : Nat) (log : FetchLog)
    (hf : 1 ≤ fuel) (h : Retriable (env 3)) :
    fetchGo env topicsOf now c0 fuel 3 b log =
      { result := Except.ok (none, some (retryErrOf (env 3))), cache := c0,
        log := { attempts := log.attempts + 1, sleeps := log.sleeps } } := by
  cases fuel with
  | zero => omega
  | succ f =>
    simp only [fetchGo, classify_retriable topicsOf now (env 3) h,
      if_neg (by decide : ¬(3 < maxAttempts))]

theorem rlMessage_retry_after (now : Int) (ra rs : Option String) (t : String)
    (h : ra = some t) (ht : t ≠ "") :
    rlMessage now ra rs = "GitHub API rate limit reached; retry after " ++ t ++ "s" := by
  subst h
  simp [rlMessage, ht]

theorem rlMessage_reset (now : Int) (ra rs : Option String)
    (hra : ra = none ∨ ra = some "") (s : String) (n : Int)
    (hrs : rs = some s) (hs : s ≠ "") (hp : pyInt? s = some n) :
    rlMessage now ra rs =
      "GitHub API rate limit reached; retry in ~" ++ toString (max 0 (n - now)) ++ "s" := by
  subst hrs
  rcases hra with h | h <;> subst h <;> simp [rlMessage, rlResetHint, hs, hp]

/-- C2: a 403 or 429 on any reachable attempt `j` halts the loop at once
with a `rate_limited` error: exactly `j` GET attempts happen, the cache is
untouched, and the message carries the `Retry-After` hint when that header
is truthy, else the `X-RateLimit-Reset` hint when that header parses. -/
theorem fetch_rate_limit_no_retry (env : Nat → Outcome) (topicsOf : JVal → List String)
    (now : Int) (j : Nat) (r : HttpResp)
    (hj1 : 1 ≤ j) (hj3 : j ≤ 3)
    (hprev : ∀ i, 1 ≤ i → i < j → Retriable (env i))
    (henv : env j = Outcome.resp r)
    (hs : r.status = 403 ∨ r.status = 429) :
    (fetchGithubRepos env topicsOf now none).result = Except.ok (none, some (rlErr now r))
    ∧ (rlErr now r).type = ErrType.rate_limited
    ∧ (fetchGithubRepos env topicsOf now none).log.attempts = j
    ∧ (fetchGithubRepos env topicsOf now none).cache = none
    ∧ (∀ t, r.retryAfter = some t → t ≠ "" →
        (rlErr now r).message =
          "GitHub API rate limit reached; retry after " ++ t ++ "s")
    ∧ ((r.retryAfter = none ∨ r.retryAfter = some "") →
        ∀ s n, r.rateLimitReset = some s → s ≠ "" → pyInt? s = some n →
          (rlErr now r).message =
            "GitHub API rate limit reached; retry in ~" ++ toString (max 0 (n - now)) ++ "s") := by
  have hmain : (fetchGithubRepos env topicsOf now none).result =
      Except.ok (none, some (rlErr now r))
      ∧ (fetchGithubRepos env topicsOf now none).log.attempts = j
      ∧ (fetchGithubRepos env topicsOf now none).cache = none := by
    rcases (by omega : j = 1 ∨ j = 2 ∨ j = 3) with hj | hj | hj <;> subst hj
    · have hout : fetchGithubRepos env topicsOf now none =
          { result := Except.ok (none, some (rlErr now r)),
            cache := none, log := { attempts := 1, sleeps := [] } } :=
        fetchGo_rl_halt env topicsOf now none 3 1 1 { attempts := 0, sleeps := [] } r
          (by decide) henv hs
      rw [hout]
      exact ⟨rfl, rfl, rfl⟩
    · have hout : fetchGithubRepos env topicsOf now none =
          { result := Except.ok (none, some (rlErr now r)),
            cache := none, log := { attempts := 2, sleeps := [1] } } :=
        (fetchGo_step_retry env topicsOf now none 3 1 1 { attempts := 0, sleeps := [] }
            (by decide) (hprev 1 (by omega) (by omega)) (by decide)).trans
          (fetchGo_rl_halt env topicsOf now none 2 2 2 { attempts := 1, sleeps := [1] } r
            (by decide) henv hs)
      rw [hout]
      exact ⟨rfl, rfl, rfl⟩
    · have hout : fetchGithubRepos env topicsOf now none =
          { result := Except.ok (none, some (rlErr now r)),
            cache := none, log := { attempts := 3, sleeps := [1, 2] } } :=
        (fetchGo_step_retry env topicsOf now none 3 1 1 { attempts := 0, sleeps := [] }
            (by decide) (hprev 1 (by omega) (by omega)) (by decide)).trans
          ((fetchGo_step_retry env topicsOf now none 2 2 2 { attempts := 1, sleeps := [1] }
              (by decide) (hprev 2 (by omega) (by omega)) (by decide)).trans
            (fetchGo_rl_halt env topicsOf now none 1 3 4 { attempts := 2, sleeps := [1, 2] } r
              (by decide) henv hs))
      rw [hout]
      exact ⟨rfl, rfl, rfl⟩
  exact ⟨hmain.1, rfl, hmain.2.1, hmain.2.2,
    fun t ht htne => rlMessage_retry_after now r.retryAfter r.rateLimitReset t ht htne,
    fun hra s n h1 h2 h3 => rlMessage_reset now r.retryAfter r.rateLimitReset hra s n h1 h2 h3⟩

theorem fetch_rate_limit_no_retry_witness :
    (fetchGithubRepos (fun _ => Outcome.resp ⟨403, some "30", none, none⟩)
        (fun _ => []) 0 none).result =
      Except.ok (none, some (rlErr 0 ⟨403, some "30", none, none⟩))
    ∧ (fetchGithubRepos (fun _ => Outcome.resp ⟨403, some "30", none, none⟩)
        (fun _ => []) 0 none).log.attempts = 1 :=
  ⟨(fetch_rate_limit_no_retry (fun _ => Outcome.resp ⟨403, some "30", none, none⟩)
      (fun _ => []) 0 1 ⟨403, some "30", none, none⟩ (by omega) (by omega)
      (fun i h1 h2 => absurd h2 (by omega)) rfl (Or.inl rfl)).1,
   (fetch_rate_limit_no_retry (fun _ => Outcome.resp ⟨403, some "30", none, none⟩)
      (fun _ => []) 0 1 ⟨403, some "30", none, none⟩ (by omega) (by omega)
      (fun i h1 h2 => absurd h2 (by omega)) rfl (Or.inl rfl)).2.2.1⟩

/-- C3: when attempts 1-3 all hit retriable outcomes (any 5xx status, a
timeout, or another transport fault), the fetch performs exactly 3 GET
attempts — never a fourth — sleeping 1s between the first and second and
2s between the second and third, and returns the error of the final
attempt: `upstream_error` carrying the status when the final outcome is a
5xx response, `timeout`/504 for a timeout, `request_exception`/502 for a
transport fault.  The cache is untouched. -/
theorem fetch_retry_exhaustion (env : Nat → Outcome) (topicsOf : JVal → List String)
    (now : Int)
    (h : ∀ i, 1 ≤ i → i ≤ 3 → Retriable (env i)) :
    (fetchGithubRepos env topicsOf now none).result =
      Except.ok (none, some (retryErrOf (env 3)))
    ∧ (fetchGithubRepos env topicsOf now none).log.attempts = 3
    ∧ (fetchGithubRepos env topicsOf now none).log.sleeps = [1, 2]
    ∧ (fetchGithubRepos env topicsOf now none).cache = none
    ∧ (∀ r, env 3 = Outcome.resp r → retryErrOf (env 3) =
        { type := ErrType.upstream_error, status := r.status,
          message := "GitHub returned " ++ toString r.status })
    ∧ (env 3 = Outcome.timeout → retryErrOf (env 3) =
        { type := ErrType.timeout, status := 504, message := "Request timed out" })
    ∧ (∀ m, env 3 = Outcome.exn m → retryErrOf (env 3) =
        { type := ErrType.request_exception, status := 502, message := m }) := by
  have hout : fetchGithubRepos env topicsOf now none =
      { result := Except.ok (none, some (retryErrOf (env 3))),
        cache := none, log := { attempts := 3, sleeps := [1, 2] } } :=
    (fetchGo_step_retry env topicsOf now none 3 1 1 { attempts := 0, sleeps := [] }
        (by decide) (h 1 (by omega) (by omega)) (by decide)).trans
      ((fetchGo_step_retry env topicsOf now none 2 2 2 { attempts := 1, sleeps := [1] }
          (by decide) (h 2 (by omega) (by omega)) (by decide)).trans
        (fetchGo_final_retry env topicsOf now none 1 4 { attempts := 2, sleeps := [1, 2] }
          (by decide) (h 3 (by omega) (by omega))))
  rw [hout]
  refine ⟨rfl, rfl, rfl, rfl, ?_, ?_, ?_⟩
  · intro r hr; rw [hr]; rfl
  · intro hr; rw [hr]; rfl
  · intro m hr; rw [hr]; rfl

theorem fetch_retry_exhaustion_witness :
    (fetchGithubRepos (fun _ => Outcome.resp ⟨503, none, none, none⟩)
        (fun _ => []) 0 none).result =
      Except.ok (none, some (retryErrOf ((fun _ => Outcome.resp ⟨503, none, none, none⟩) 3)))
    ∧ (fetchGithubRepos (fun _ => Outcome.resp ⟨503, none, none, none⟩)
        (fun _ => []) 0 none).log.attempts = 3
    ∧ (fetchGithubRepos (fun _ => Outcome.resp ⟨503, none, none, none⟩)
        (fun _ => []) 0 none).log.sleeps = [1, 2] :=
  ⟨(fetch_retry_exhaustion (fun _ => Outcome.resp ⟨503, none, none, none⟩) (fun _ => []) 0
      (fun i h1 h2 => ⟨by decide, by decide⟩)).1,
   (fetch_retry_exhaustion (fun _ => Outcome.resp ⟨503, none, none, none⟩) (fun _ => []) 0
      (fun i h1 h2 => ⟨by decide, by decide⟩)).2.1,
   (fetch_retry_exhaustion (fun _ => Outcome.resp ⟨503, none, none, none⟩) (fun _ => []) 0
      (fun i h1 h2 => ⟨by decide, by decide⟩)).2.2.1⟩

/-- C4 counterexample: an upstream behaviour exists — a 200 response whose
valid JSON body decodes to `null` — on which `_fetch_github_repos` in
main.py propagates an uncaught `TypeError` from the enrichment loop
`for r in data:` (main.py:369), instead of returning a `(data, error)`
pair.  The claim that every upstream behaviour yields a pair and no
unhandled exception is therefore false as stated. -/
theorem fetch_unhandled_exception_cex :
    (fetchGithubRepos (fun _ => Outcome.resp ⟨200, none, none, some JVal.null⟩)
        (fun _ => []) 0 none).result =
      Except.error "TypeError: argument of type NoneType is not iterable" := rfl

theorem fetchGo_exactly_one (env : Nat → Outcome) (topicsOf : JVal → List String) (now : Int)
    (c0 : Option (JVal × Nat)) (hsafe : ∀ i, BodySafe (env i)) :
    ∀ fuel a b log, 4 ≤ fuel + a → a ≤ 3 →
      (∃ d, (fetchGo env topicsOf now c0 fuel a b log).result = Except.ok (some d, none)) ∨
      (∃ e, (fetchGo env topicsOf now c0 fuel a b log).result = Except.ok (none, some e)) := by
  intro fuel
  induction fuel with
  | zero => intro a b log h1 h2; omega
  | succ f ih =>
    intro a b log h1 h2
    simp only [fetchGo]
    cases hc : classifyOutcome topicsOf now (env a) with
    | success d => exact Or.inl ⟨d, rfl⟩
    | raised m => exact absurd hc (classify_not_raised topicsOf now (env a) (hsafe a) m)
    | halt e => exact Or.inr ⟨e, rfl⟩
    | retry e =>
      by_cases hlt : a < maxAttempts
      · have hlt3 : a < 3 := hlt
        simp only [if_pos hlt]
        exact ih (a + 1) (b * 2) _ (by omega) (by omega)
      · simp only [if_neg hlt]
        exact Or.inr ⟨e, rfl⟩

/-- C4 (amended): the claim holds once restricted to upstream behaviours
whose 200-response bodies are iterable when they decode at all (arrays,
strings or objects — in particular the JSON array the listing endpoint
returns; an undecodable body is caught as a `RequestException`): then
`_fetch_github_repos` always returns a pair with exactly one of data and
error present, and never propagates an exception. -/
theorem fetch_total_on_iterable_bodies (env : Nat → Outcome) (topicsOf : JVal → List String)
    (now : Int) (c0 : Option (JVal × Nat))
    (hsafe : ∀ i, BodySafe (env i)) :
    (∃ d, (fetchGithubRepos env topicsOf now c0).result = Except.ok (some d, none)) ∨
    (∃ e, (fetchGithubRepos env topicsOf now c0).result = Except.ok (none, some e)) := by
  cases c0 with
  | some p =>
    cases p with
    | mk v ttl => exact Or.inl ⟨v, rfl⟩
  | none =>
    exact fetchGo_exactly_one env topicsOf now none hsafe 3 1 1
      { attempts := 0, sleeps := [] } (by omega) (by omega)

theorem fetch_total_on_iterable_bodies_witness :
    (∃ d, (fetchGithubRepos (fun _ => Outcome.resp ⟨200, none, none, some (JVal.arr [])⟩)
        (fun _ => []) 0 none).result = Except.ok (some d, none)) ∨
    (∃ e, (fetchGithubRepos (fun _ => Outcome.resp ⟨200, none, none, some (JVal.arr [])⟩)
        (fun _ => []) 0 none).result = Except.ok (none, some e)) :=
  fetch_total_on_iterable_bodies (fun _ => Outcome.resp ⟨200, none, none, some (JVal.arr [])⟩)
    (fun _ => []) 0 none
    (fun i => by
      intro h200 b hb
      simp only [Option.some.injEq] at hb
      subst hb
      trivial)

/-- C5: a submission whose trimmed honeypot field `website` is non-empty
returns HTTP 200 with body `{ok: true}`, with an empty effect list (no row
inserted, no email dispatched, no counter touched, no captcha call) and the
counter store unchanged, whatever the other fields and the whole
configuration are. -/
theorem contact_honeypot_silent_ok (ctx : ContactCtx) (counters : String → Option Int)
    (data : String → Option String)
    (hhp : pyStrip (pyOrDef (data "website") "") ≠ "") :
    apiContact ctx counters data =
      { resp := ContactResp.honeypotOk, status := 200, effects := [],
        counters := counters } := by
  simp [apiContact, hhp]

theorem contact_honeypot_silent_ok_witness :
    apiContact ctxW (fun _ => none) dataHP =
      { resp := ContactResp.honeypotOk, status := 200, effects := [],
        counters := fun _ => none } :=
  contact_honeypot_silent_ok ctxW (fun _ => none) dataHP (by decide)

theorem captchaChain_shape (ctx : ContactCtx) (data : String → Option String)
    (tk hc rc : Option String) :
    (captchaChain ctx data tk hc rc).1 = none ∨
    (captchaChain ctx data tk hc rc).1 = some (ContactResp.captchaRequired, 400) ∨
    (captchaChain ctx data tk hc rc).1 = some (ContactResp.captchaFailed, 400) := by
  unfold captchaChain
  dsimp only
  repeat' split
  all_goals simp

theorem bypassCounters_shape (ctx : ContactCtx) (m : String)
    (counters : String → Option Int) :
    (bypassCounters ctx m counters).early = none ∨
    (bypassCounters ctx m counters).early = some (ContactResp.rateLimited "burst", 429) ∨
    (bypassCounters ctx m counters).early = some (ContactResp.rateLimited "hourly", 429) ∨
    (bypassCounters ctx m counters).early = some (ContactResp.rateLimited "daily", 429) ∨
    (bypassCounters ctx m counters).early = some (ContactResp.duplicateMsg, 429) := by
  unfold bypassCounters
  dsimp only
  repeat' split
  all_goals simp

theorem contactFinal_not_validation (ctx : ContactCtx) (counters : String → Option Int)
    (data : String → Option String) (n e m : String) (tk hc rc : Option String)
    (eff : List Effect) (a b c : Option String) :
    (contactFinal ctx counters data n e m tk hc rc eff).resp
      ≠ ContactResp.validationError a b c := by
  rcases captchaChain_shape ctx data tk hc rc with h | h | h <;>
    simp [contactFinal, h]

theorem contactGuarded_not_validation (ctx : ContactCtx) (counters : String → Option Int)
    (data : String → Option String) (n e m : String) (a b c : Option String) :
    (contactGuarded ctx counters data n e m).resp ≠ ContactResp.validationError a b c := by
  unfold contactGuarded
  dsimp only
  split
  · rcases bypassCounters_shape ctx m counters with h | h | h | h | h
    all_goals simp [h]
    exact contactFinal_not_validation ctx _ data n e m none none none _ a b c
  · exact contactFinal_not_validation ctx counters data n e m _ _ _ [] a b c

/-- C6: with the honeypot empty, validation behaves exactly as specified:
any combination of trimmed-name length < 2, email not matching the
pattern, or trimmed message shorter than the configured minimum yields
HTTP 400 with a `validation_error` details object marking exactly the
failing fields and no side effect; if all three pass, the response is
never a validation error.  With `CONTACT_MIN_MESSAGE_LEN` unset the
minimum is 20, so a 19-character message always fails with a non-null
`details.message` of `"too_short_min_20"`. -/
theorem contact_validation_rules (ctx : ContactCtx) (counters : String → Option Int)
    (data : String → Option String)
    (hhp : pyStrip (pyOrDef (data "website") "") = "") :
    ((validName data && validEmail data && validMessage ctx data) = false →
      apiContact ctx counters data =
        { resp := ContactResp.validationError
            (if validName data then none else some "too_short")
            (if validEmail data then none else some "invalid")
            (if validMessage ctx data then none
             else some ("too_short_min_" ++ toString (contactMinLen ctx))),
          status := 400, effects := [], counters := counters })
    ∧ (validName data = true ↔ 2 ≤ (contactName data).length)
    ∧ (validMessage ctx data = true ↔ contactMinLen ctx ≤ ((contactMessage data).length : Int))
    ∧ ((validName data && validEmail data && validMessage ctx data) = true →
        ∀ a b c, (apiContact ctx counters data).resp ≠ ContactResp.validationError a b c)
    ∧ (ctx.minLenEnv = none → contactMinLen ctx = 20)
    ∧ (ctx.minLenEnv = none → (contactMessage data).length < 20 →
        validMessage ctx data = false ∧
        apiContact ctx counters data =
          { resp := ContactResp.validationError
              (if validName data then none else some "too_short")
              (if validEmail data then none else some "invalid")
              (some "too_short_min_20"),
            status := 400, effects := [], counters := counters } ∧
        (some "too_short_min_20" : Option String) ≠ none) := by
  have hfail : (validName data && validEmail data && validMessage ctx data) = false →
      apiContact ctx counters data =
        { resp := ContactResp.validationError
            (if validName data then none else some "too_short")
            (if validEmail data then none else some "invalid")
            (if validMessage ctx data then none
             else some ("too_short_min_" ++ toString (contactMinLen ctx))),
          status := 400, effects := [], counters := counters } := by
    intro hv
    simp [apiContact, hhp, hv]
  refine ⟨hfail, by simp [validName], by simp [validMessage], ?_, ?_, ?_⟩
  · intro hv a b c
    have : apiContact ctx counters data =
        contactGuarded ctx counters data (contactName data) (contactEmail data)
          (contactMessage data) := by
      simp [apiContact, hhp, hv]
    rw [this]
    exact contactGuarded_not_validation ctx counters data _ _ _ a b c
  · intro hdef
    simp [contactMinLen, hdef, pyInt?, pyStrip, pyIntStart, pyIntDigits]
  · intro hdef hlen
    have hmin : contactMinLen ctx = 20 := by
      simp [contactMinLen, hdef, pyInt?, pyStrip, pyIntStart, pyIntDigits]
    have hvm : validMessage ctx data = false := by
      simp only [validMessage, hmin, decide_eq_false_iff_not]
      intro hcon
      have : (20 : Int) ≤ ((contactMessage data).length : Int) := hcon
      omega
    have hand : (validName data && validEmail data && validMessage ctx data) = false := by
      simp [hvm]
    refine ⟨hvm, ?_, by simp⟩
    have := hfail hand
    rw [this, hvm, hmin]
    simp
    rfl

theorem contact_validation_rules_witness :
    validMessage ctxW dataW19 = false ∧
    apiContact ctxW (fun _ => none) dataW19 =
      { resp := ContactResp.validationError
          (if validName dataW19 then none else some "too_short")
          (if validEmail dataW19 then none else some "invalid")
          (some "too_short_min_20"),
        status := 400, effects := [], counters := fun _ => none } ∧
    (some "too_short_min_20" : Option String) ≠ none :=
  (contact_validation_rules ctxW (fun _ => none) dataW19 (by decide)).2.2.2.2.2
    rfl (by decide)

/-- C10: every fetch error delivered by `GET /api/github/repos` travels
with an HTTP status of at least 400: the error's own status is used
exactly when it is at least 400, anything smaller maps to 502, so an error
body is never delivered with a 2xx or 3xx status. -/
theorem repos_error_status_floor (env : Nat → Outcome) (topicsOf : JVal → List String)
    (now : Int) (c0 : Option (JVal × Nat)) (username : String) (e : FetchErr)
    (he : (fetchGithubRepos env topicsOf now c0).result = Except.ok (none, some e)) :
    apiGithubRepos env topicsOf now c0 username =
      Except.ok
        { okBody := false, errType := some e.type, message := some e.message,
          username := username, http := if 400 ≤ e.status then e.status else 502 }
    ∧ 400 ≤ (if 400 ≤ e.status then e.status else 502)
    ∧ (400 ≤ e.status → (if 400 ≤ e.status then e.status else 502) = e.status)
    ∧ (e.status < 400 → (if 400 ≤ e.status then e.status else 502) = 502) := by
  refine ⟨?_, ?_, ?_, ?_⟩
  · simp [apiGithubRepos, he]
  · split <;> omega
  · intro h; rw [if_pos h]
  · intro h; rw [if_neg (by omega)]

/-- C7: for a non-empty stripped query over a successfully fetched list,
the reported `count` is the number of matching repositories
(case-insensitive substring of the name/description/language/topics
haystack), the `results` are projections of matching repositories only,
sorted descending by the `(stars, updated)` key, truncated to
`min count 10` entries drawn from the matches without repetition, and are
the complete match set whenever at most 10 repositories match; when no
repository matches, the response is `found 0 []` with HTTP 200. -/
theorem search_results_characterization (qRaw : String) (data : List Repo)
    (hq : pyStrip qRaw ≠ "") :
    ∃ items,
      apiSearch qRaw none data =
        (SearchResp.found (data.filter (repoMatches (pyLower (pyStrip qRaw)))).length items,
          200)
      ∧ items.length = min 10 (data.filter (repoMatches (pyLower (pyStrip qRaw)))).length
      ∧ List.Sorted itemBefore items
      ∧ (∀ it, it ∈ items →
          it ∈ (data.filter (repoMatches (pyLower (pyStrip qRaw)))).map toItem)
      ∧ List.Subperm items ((data.filter (repoMatches (pyLower (pyStrip qRaw)))).map toItem)
      ∧ ((data.filter (repoMatches (pyLower (pyStrip qRaw)))).length ≤ 10 →
          List.Perm items ((data.filter (repoMatches (pyLower (pyStrip qRaw)))).map toItem))
      ∧ (data.filter (repoMatches (pyLower (pyStrip qRaw))) = [] →
          apiSearch qRaw none data = (SearchResp.found 0 [], 200)) := by
  have happ : apiSearch qRaw none data =
      (SearchResp.found
        (List.insertionSort itemBefore
          ((data.filter (repoMatches (pyLower (pyStrip qRaw)))).map toItem)).length
        ((List.insertionSort itemBefore
          ((data.filter (repoMatches (pyLower (pyStrip qRaw)))).map toItem)).take 10),
        200) := by
    simp [apiSearch, hq]
  rw [List.length_insertionSort, List.length_map] at happ
  refine ⟨(List.insertionSort itemBefore
    ((data.filter (repoMatches (pyLower (pyStrip qRaw)))).map toItem)).take 10,
    happ, ?_, ?_, ?_, ?_, ?_, ?_⟩
  · rw [List.length_take, List.length_insertionSort, List.length_map]
  · exact (List.sorted_insertionSort itemBefore _).sublist (List.take_sublist 10 _)
  · intro it hit
    have h1 : it ∈ List.insertionSort itemBefore
        ((data.filter (repoMatches (pyLower (pyStrip qRaw)))).map toItem) :=
      List.mem_of_mem_take hit
    exact (List.perm_insertionSort itemBefore _).mem_iff.mp h1
  · exact ((List.take_sublist 10 _).subperm).trans
      (List.perm_insertionSort itemBefore _).subperm
  · intro hlen
    have hfull : (List.insertionSort itemBefore
        ((data.filter (repoMatches (pyLower (pyStrip qRaw)))).map toItem)).take 10 =
        List.insertionSort itemBefore
          ((data.filter (repoMatches (pyLower (pyStrip qRaw)))).map toItem) := by
      apply List.take_of_length_le
      rw [List.length_insertionSort, List.length_map]
      exact hlen
    rw [hfull]
    exact List.perm_insertionSort itemBefore _
  · intro hempty
    rw [hempty] at happ
    simpa using happ

theorem search_results_characterization_witness :
    ∃ items,
      apiSearch "zz" none [] =
        (SearchResp.found (List.filter (repoMatches (pyLower (pyStrip "zz"))) []).length items,
          200)
      ∧ items.length = min 10 (List.filter (repoMatches (pyLower (pyStrip "zz"))) []).length
      ∧ List.Sorted itemBefore items
      ∧ (∀ it, it ∈ items →
          it ∈ (List.filter (repoMatches (pyLower (pyStrip "zz"))) []).map toItem)
      ∧ List.Subperm items ((List.filter (repoMatches (pyLower (pyStrip "zz"))) []).map toItem)
      ∧ ((List.filter (repoMatches (pyLower (pyStrip "zz"))) []).length ≤ 10 →
          List.Perm items ((List.filter (repoMatches (pyLower (pyStrip "zz"))) []).map toItem))
      ∧ (List.filter (repoMatches (pyLower (pyStrip "zz"))) [] = [] →
          apiSearch "zz" none [] = (SearchResp.found 0 [], 200)) :=
  search_results_characterization "zz" [] (by decide)

theorem escapeChar_no_raw (c0 c : Char) (h : c ∈ escapeChar c0) :
    c ≠ '<' ∧ c ≠ '>' ∧ c ≠ '"' ∧ c ≠ '\'' := by
  unfold escapeChar at h
  split_ifs at h with h1 h2 h3 h4 h5
  · fin_cases h <;> decide
  · fin_cases h <;> decide
  · fin_cases h <;> decide
  · fin_cases h <;> decide
  · fin_cases h <;> decide
  · have hc : c = c0 := List.mem_singleton.mp h
    subst hc
    exact ⟨h2, h3, h4, h5⟩

theorem escapeHtml_no_raw (s : String) : NoRawMarkup (escapeHtml s) := by
  intro c hc
  have hc2 : c ∈ List.flatten (s.data.map escapeChar) := hc
  rcases List.mem_flatten.mp hc2 with ⟨l, hl, hcl⟩
  rcases List.mem_map.mp hl with ⟨c0, _, rfl⟩
  exact escapeChar_no_raw c0 c hcl

set_option maxRecDepth 8192 in
/-- C8: the feed renders the fetched list sorted descending by the
last-update key and truncated to the top 10; every rendered `title`,
`link` and `description` is HTML-escaped (no raw `<`, `>`, `"` or `'`
survives); the `pubDate` is the RFC-2822 formatting of the parsed
ISO-8601 timestamp, falling back to formatting the current time when
parsing fails; and for an empty repository list the document is the fixed
zero-item RSS 2.0 skeleton, which passes a tag-balance check and contains
no `<item>` element. -/
theorem feed_structure (DT : Type) (parse : String → Option DT) (fmt : DT → String)
    (nowDt : DT) (username siteLink : String) (data : List Repo) :
    (feedXml DT parse fmt nowDt username siteLink data).items.length = min 10 data.length
    ∧ (∃ rs, List.Subperm rs data ∧ List.Sorted repoBefore rs
        ∧ rs.length = min 10 data.length
        ∧ (feedXml DT parse fmt nowDt username siteLink data).items
            = rs.map (renderFeedItem DT parse fmt nowDt siteLink)
        ∧ (data.length ≤ 10 → List.Perm rs data))
    ∧ (∀ r : Repo, NoRawMarkup (renderFeedItem DT parse fmt nowDt siteLink r).title
        ∧ NoRawMarkup (renderFeedItem DT parse fmt nowDt siteLink r).description
        ∧ NoRawMarkup (renderFeedItem DT parse fmt nowDt siteLink r).link)
    ∧ (∀ r : Repo, (renderFeedItem DT parse fmt nowDt siteLink r).pubDate =
        match parse (pyReplaceZ (pyOrDef (pyOrS r.pushed_at r.updated_at) "")) with
        | some dt => fmt dt
        | none => fmt nowDt)
    ∧ (data = [] →
        (feedXml DT parse fmt nowDt username siteLink data).items = []
        ∧ (feedXml DT parse fmt nowDt username siteLink data).xml =
            "<?xml version=\"1.0\" encoding=\"UTF-8\"?>\n<rss version=\"2.0\">\n<channel>\n<title>"
              ++ escapeHtml (username ++ "'s updates")
              ++ "</title>\n<link>" ++ siteLink
              ++ "</link>\n<description>Latest updated repositories</description>\n\n</channel>\n</rss>")
    ∧ xmlBalanced (feedXml Unit (fun _ => none) (fun _ => "") () "Yusuf-Siddiqui-08"
        "http://localhost:8080" []).xml = true
    ∧ subOccurs ("<item>".data) (feedXml Unit (fun _ => none) (fun _ => "") ()
        "Yusuf-Siddiqui-08" "http://localhost:8080" []).xml.data = false := by
  refine ⟨?_, ?_, ?_, ?_, ?_, ?_, ?_⟩
  · simp [feedXml, List.length_map, List.length_take, List.length_insertionSort]
  · refine ⟨(List.insertionSort repoBefore data).take 10, ?_, ?_, ?_, ?_, ?_⟩
    · exact ((List.take_sublist 10 _).subperm).trans
        (List.perm_insertionSort repoBefore data).subperm
    · exact (List.sorted_insertionSort repoBefore data).sublist (List.take_sublist 10 _)
    · rw [List.length_take, List.length_insertionSort]
    · simp [feedXml]
    · intro hlen
      have hfull : (List.insertionSort repoBefore data).take 10 =
          List.insertionSort repoBefore data := by
        apply List.take_of_length_le
        rw [List.length_insertionSort]
        exact hlen
      rw [hfull]
      exact List.perm_insertionSort repoBefore data
  · intro r
    exact ⟨escapeHtml_no_raw _, escapeHtml_no_raw _, escapeHtml_no_raw _⟩
  · intro r
    rfl
  · intro hempty
    subst hempty
    refine ⟨rfl, ?_⟩
    apply String.ext
    simp [feedXml, String.join]
  · decide
  · decide

theorem feed_structure_witness :
    (feedXml Unit (fun _ => none) (fun _ => "") () "u" "http://h" []).items = []
    ∧ (feedXml Unit (fun _ => none) (fun _ => "") () "u" "http://h" []).xml =
        "<?xml version=\"1.0\" encoding=\"UTF-8\"?>\n<rss version=\"2.0\">\n<channel>\n<title>"
          ++ escapeHtml ("u" ++ "'s updates")
          ++ "</title>\n<link>" ++ "http://h"
          ++ "</link>\n<description>Latest updated repositories</description>\n\n</channel>\n</rss>" :=
  (feed_structure Unit (fun _ => none) (fun _ => "") () "u" "http://h" []).2.2.2.2.1 rfl

/-- C9 counterexample: with an empty `q` the route returns before any
fetch with body `{"ok": True, "results": []}` (main.py:734) — the body has
no `count` field, refuting the claim that every response not caused by a
fetch error (explicitly including empty queries) carries `ok`, `count`
and `results`. -/
theorem search_empty_query_missing_count_cex :
    (apiSearch "" none []).1 = SearchResp.emptyQuery ∧
    searchBodyFields (apiSearch "" none []).1 = ["ok", "results"] ∧
    ¬("count" ∈ searchBodyFields (apiSearch "" none []).1) := by
  refine ⟨rfl, rfl, ?_⟩
  decide

/-- C9 (amended): a response for a non-empty (stripped) query with a
successful fetch carries exactly the fields `ok`, `count`, `results`;
a response for an empty or missing query carries only `ok` and `results`,
without `count`. -/
theorem search_body_fields (qRaw : String) (fetchErr : Option FetchErr) (data : List Repo) :
    (pyStrip qRaw ≠ "" → fetchErr = none →
      searchBodyFields (apiSearch qRaw fetchErr data).1 = ["ok", "count", "results"])
    ∧ (pyStrip qRaw = "" →
        searchBodyFields (apiSearch qRaw fetchErr data).1 = ["ok", "results"] ∧
        ¬("count" ∈ searchBodyFields (apiSearch qRaw fetchErr data).1)) := by
  constructor
  · intro hq hf
    subst hf
    simp [apiSearch, hq, searchBodyFields]
  · intro hq
    simp [apiSearch, hq, searchBodyFields]

theorem search_body_fields_witness :
    searchBodyFields (apiSearch "py" none []).1 = ["ok", "count", "results"] :=
  (search_body_fields "py" none []).1 (by decide) rfl

theorem repos_error_status_floor_witness :
    apiGithubRepos (fun _ => Outcome.resp ⟨404, none, none, none⟩) (fun _ => []) 0 none "u" =
      Except.ok
        { okBody := false, errType := some ErrType.bad_status,
          message := some "GitHub returned 404", username := "u",
          http := if 400 ≤ (404 : Nat) then (404 : Nat) else 502 }
    ∧ 400 ≤ (if 400 ≤ (404 : Nat) then (404 : Nat) else 502) :=
  ⟨(repos_error_status_floor (fun _ => Outcome.resp ⟨404, none, none, none⟩) (fun _ => [])
      0 none "u" ⟨ErrType.bad_status, 404, "GitHub returned 404"⟩ rfl).1,
   (repos_error_status_floor (fun _ => Outcome.resp ⟨404, none, none, none⟩) (fun _ => [])
      0 none "u" ⟨ErrType.bad_status, 404, "GitHub returned 404"⟩ rfl).2.1⟩

end Portfolio
